import Mathlib

/-!
Verification development for the workspace-manager subsystem of the
chronus repository (packages/chronus/src/workspace-manager).

The TypeScript sources are shallowly embedded:
  * the file system and the YAML/TOML/JSON deserialization primitives are
    external collaborators of the subsystem (spec section 6); the file
    system is modelled as an association list from path to content and the
    parsers as function parameters returning `Option` (with `none` for a
    parse that throws, which every call site of the subsystem catches or
    propagates exactly as the source does);
  * the regex-based manifest patching of python/python.ts is embedded by
    executable matchers over `List Char` that implement the exact pattern
    shapes used by the source (leftmost match, greedy character-class runs,
    lazy gap for the table-scoped version patterns, alternation tried left
    to right), together with generic first/global replacement drivers that
    follow the JavaScript `String.replace` semantics for those patterns.
-/

/-! ## Basic string machinery -/

abbrev Chars := List Char

def ofChars (cs : Chars) : String := String.mk cs

/-- JavaScript regex class `\s`, restricted to the ASCII whitespace that can
occur in manifest files. -/
def isWsChar (c : Char) : Bool :=
  c == ' ' || c == '\t' || c == '\n' || c == '\r'

/-- JavaScript regex class `[\d.]`. -/
def isVersionChar (c : Char) : Bool := c.isDigit || c == '.'

/-- JavaScript regex class `[><=!]` used by the setup.py dependency pattern. -/
def isOpChar (c : Char) : Bool := c == '>' || c == '<' || c == '=' || c == '!'

/-- JavaScript regex class `["']` used by the setup.py patterns. -/
def isPyQuote (c : Char) : Bool := c == '"' || c == '\''

/-- Identifier class `[a-zA-Z0-9_-]` of the PEP 621 dependency parser. -/
def isIdentChar (c : Char) : Bool :=
  c.isAlpha || c.isDigit || c == '_' || c == '-'

/-- Consume a literal: `some` of the remaining suffix when `lit` is a prefix
of `s`, else `none`. -/
def dropLit (lit s : Chars) : Option Chars :=
  if lit.isPrefixOf s then some (s.drop lit.length) else none

/-- Scan `s` left to right for the first position where the matcher `m`
succeeds on the remaining suffix.  On success returns
`(onset, length, payload)` where `onset` is the index of the match and
`length` the number of characters it consumed.  This is the leftmost-match
rule of JavaScript `RegExp` search. -/
def findMatch (m : Chars → Option (Nat × α)) : Chars → Option (Nat × Nat × α)
  | [] =>
    match m [] with
    | some (n, a) => some (0, n, a)
    | none => none
  | c :: rest =>
    match m (c :: rest) with
    | some (n, a) => some (0, n, a)
    | none =>
      match findMatch m rest with
      | some (i, n, a) => some (i + 1, n, a)
      | none => none

/-- JavaScript `String.replace` with a non-global regex: replace the leftmost
match, if any; the payload of the matcher is the replacement text (already
assembled from the capture groups). -/
def replaceFirst (m : Chars → Option (Nat × Chars)) (l : Chars) : Chars :=
  match findMatch m l with
  | none => l
  | some (i, n, r) => l.take i ++ r ++ l.drop (i + n)

/-- JavaScript `String.replace` with a global regex: repeatedly replace the
leftmost match and resume the scan after the replaced region.  The fuel is
the length of the string, which bounds the number of nonempty matches; the
matchers used here never match the empty string (each requires at least one
literal character), and the `n == 0` guard keeps the function total on that
impossible case. -/
def replaceAllFuel (m : Chars → Option (Nat × Chars)) : Nat → Chars → Chars
  | 0, l => l
  | fuel + 1, l =>
    match findMatch m l with
    | none => l
    | some (i, n, r) =>
      if n == 0 then l
      else l.take i ++ r ++ replaceAllFuel m fuel (l.drop (i + n))

def replaceAll (m : Chars → Option (Nat × Chars)) (l : Chars) : Chars :=
  replaceAllFuel m l.length l

/-- Whether `pat` occurs as a contiguous substring of `s`. -/
def containsSub (pat : Chars) : Chars → Bool
  | [] => pat.isPrefixOf []
  | c :: rest => pat.isPrefixOf (c :: rest) || containsSub pat rest

/-! ## External collaborators: file system and host

The host abstraction (utils/host.ts, utils/fs-utils.ts, utils/path-utils.ts)
is outside the modelled subsystem (spec section 6).  The file system is an
association list from path to file content; `isPathAccessible` is lookup
success, `readFile` throws (`Except.error`) on a missing path, and the path
helpers are slash concatenation. -/

abbrev FileSystem := List (String × String)

structure ChronusError where
  message : String
deriving DecidableEq

def lookupFile (fs : FileSystem) (p : String) : Option String := fs.lookup p

def isPathAccessible (fs : FileSystem) (p : String) : Bool :=
  (lookupFile fs p).isSome

def readFile (fs : FileSystem) (p : String) : Except ChronusError String :=
  match lookupFile fs p with
  | some content => Except.ok content
  | none => Except.error { message := "File not found: " ++ p }

def joinPaths (a b : String) : String := a ++ "/" ++ b

def resolvePath3 (a b c : String) : String := a ++ "/" ++ b ++ "/" ++ c

/-- Overwrite the content stored at path `p` (if present) without adding or
removing any entry.  Used to state content-independence of detection. -/
def setContent : FileSystem → String → String → FileSystem
  | [], _, _ => []
  | (k, v) :: rest, p, c =>
    (k, if k == p then c else v) :: setContent rest p c

/-! ## Data model (workspace-manager/types.ts, shapes used by the sources) -/

structure PackageDependencySpec where
  name : String
  version : String
  kind : String
deriving DecidableEq

/-- A discovered package.  `name` and `version` are `Option` because the
Node reader (utils.ts, `tryLoadNodePackage`) copies the corresponding
package.json fields verbatim, including an absent field; the raw `manifest`
field of the Node variant is not modelled (no claim mentions it). -/
structure Package where
  name : Option String
  version : Option String
  relativePath : String
  dependencies : List (String × PackageDependencySpec)
deriving DecidableEq

structure Workspace where
  type : String
  path : String
  packages : List Package
deriving DecidableEq

structure WorkspaceManagerConfig where
  packagePatterns : Option (List String)
deriving DecidableEq

structure PatchPackageVersion where
  newVersion : Option String
  dependenciesVersions : List (String × String)
deriving DecidableEq

/-- Registry entry: static identity plus the detection predicate.  The
`load` and `updateVersionsForPackage` operations are modelled as standalone
functions per ecosystem below; the host argument of `is` is folded into the
predicate. -/
structure WorkspaceManager where
  type : String
  aliases : List String
  is : String → Bool

/-! ## Ecosystem registry and auto-discovery (auto-discover.ts) -/

/-- Modelled from the spec: the registry of auto-discover.ts instantiates
`createPnpmWorkspaceManager`, `createRushWorkspaceManager`,
`createNodeWorkspaceManager`, `CargoWorkspaceManager`, `PipWorkspaceManager`
in this order; the defining modules of those constructors are not among the
sources, so their detection predicates are abstract parameters here and the
type tags follow the repository tests (pnpm, rush, npm, python) and the
spec's ecosystem list (cargo).  The python/pip entry carries the tag and
alias of PythonWorkspaceManager (python/python.ts). -/
def ecosystems (pnpmIs rushIs nodeIs cargoIs pipIs : String → Bool) :
    List WorkspaceManager :=
  [ { type := "pnpm", aliases := [], is := pnpmIs },
    { type := "rush", aliases := [], is := rushIs },
    { type := "npm", aliases := [], is := nodeIs },
    { type := "cargo", aliases := [], is := cargoIs },
    { type := "python", aliases := ["py"], is := pipIs } ]

def noWorkspaceErr : ChronusError :=
  { message := "Couldn't figure out the workspace type." }

/-- auto-discover.ts, `findWorkspaceManager`: first manager in registry
order whose predicate holds, else throw. -/
def findWorkspaceManager : List WorkspaceManager → String →
    Except ChronusError WorkspaceManager
  | [], _ => Except.error noWorkspaceErr
  | e :: rest, root =>
    if e.is root then Except.ok e else findWorkspaceManager rest root

def unknownTypeErr (ecos : List WorkspaceManager) (t : String) : ChronusError :=
  { message := "Unknown workspace type: " ++ t ++ ". Available types: " ++
      String.intercalate ", " (ecos.map (fun e => e.type)) }

/-- auto-discover.ts, `getWorkspaceManager`: `"auto"` or an absent type runs
detection; otherwise the registry is searched by alias or canonical type
without consulting any predicate. -/
def getWorkspaceManager (ecos : List WorkspaceManager) (root : String)
    (type? : Option String) : Except ChronusError WorkspaceManager :=
  match type? with
  | none => findWorkspaceManager ecos root
  | some t =>
    if t == "auto" then findWorkspaceManager ecos root
    else
      match ecos.find? (fun e => e.aliases.contains t || e.type == t) with
      | some e => Except.ok e
      | none => Except.error (unknownTypeErr ecos t)

/-! ## Detection predicates of the modelled ecosystems -/

/-- Shape of the parsed root package.json as npm.ts consumes it: the
`workspaces` field is absent, present but not an array, or an array of
pattern strings.  The parser itself is an external collaborator. -/
inductive WorkspacesField where
  | absent
  | notArray
  | arr (patterns : List String)
deriving DecidableEq

structure PackageJsonWs where
  workspaces : WorkspacesField
deriving DecidableEq

def workspaceFileName : String := "package.json"

/-- npm.ts, `createNpmWorkspaceManager().is`: read package.json, parse it,
and require an array-valued `workspaces` field; any thrown error (missing
file, parse failure, field access on a non-object) yields `false`.  A
failing parse is `none` of the parser collaborator. -/
def npmIs (parsePkg : String → Option PackageJsonWs) (fs : FileSystem)
    (dir : String) : Bool :=
  match readFile fs (joinPaths dir workspaceFileName) with
  | Except.error _ => false
  | Except.ok content =>
    match parsePkg content with
    | none => false
    | some pj =>
      match pj.workspaces with
      | WorkspacesField.arr _ => true
      | _ => false

/-- python/python.ts, `PythonWorkspaceManager.is`: any of the three marker
files at the root makes the directory a Python workspace; file content is
never read. -/
def pythonIs (fs : FileSystem) (dir : String) : Bool :=
  isPathAccessible fs (joinPaths dir "setup.py") ||
  isPathAccessible fs (joinPaths dir "pyproject.toml") ||
  isPathAccessible fs (joinPaths dir "requirements.txt")

/-! ## Manifest readers -/

/-- Shape of a parsed per-package package.json as utils.ts consumes it. -/
structure NodePkgJson where
  name : Option String
  version : Option String
deriving DecidableEq

/-- utils.ts, `tryLoadNodePackage`: if package.json exists it is read and
JSON-parsed with no try/catch, so a parse failure propagates as an error;
on success the `name` and `version` fields are copied verbatim into the
package record (no defaulting, no name check).  A missing package.json
yields `Except.ok none` (the directory is skipped). -/
def tryLoadNodePackage (parseNodePkg : String → Option NodePkgJson)
    (fs : FileSystem) (root relativePath : String) :
    Except ChronusError (Option Package) :=
  let pkgJsonPath := resolvePath3 root relativePath workspaceFileName
  if isPathAccessible fs pkgJsonPath then
    match lookupFile fs pkgJsonPath with
    | none => Except.ok none
    | some content =>
      match parseNodePkg content with
      | none => Except.error { message := "JSON parse failure" }
      | some pj =>
        Except.ok (some
          { name := pj.name
            version := pj.version
            relativePath := relativePath
            dependencies := [] })
  else Except.ok none

/-- Shape of a parsed pyproject.toml as python/python.ts consumes it
(interface PyProjectToml).  A parse that throws, or a parse result on which
the subsequent field accesses throw (e.g. YAML `null`), is `none` of the
parser collaborator, since both land in the same catch of the source. -/
structure ProjectTable where
  name : Option String
  version : Option String
  dependencies : Option (List String)
deriving DecidableEq

structure PoetryTable where
  name : Option String
  version : Option String
  dependencies : Option (List (String × String))
  devDependencies : Option (List (String × String))
deriving DecidableEq

structure PyProjectToml where
  project : Option ProjectTable
  toolPoetry : Option PoetryTable
deriving DecidableEq

/-- JavaScript truthiness of an optional string field: absent and the empty
string are falsy. -/
def truthyStr : Option String → Bool
  | some s => !(s == "")
  | none => false

/-- The `value || "0.0.0"` defaulting of the Python readers. -/
def orDefaultVersion : Option String → String
  | some s => if s == "" then "0.0.0" else s
  | none => "0.0.0"

/-- JavaScript `Map.set`: overwrite in place when the key exists (keeping
its position), append otherwise. -/
def mapSet (m : List (String × PackageDependencySpec)) (k : String)
    (v : PackageDependencySpec) : List (String × PackageDependencySpec) :=
  if m.any (fun e => e.1 == k) then
    m.map (fun e => if e.1 == k then (k, v) else e)
  else m ++ [(k, v)]

/-- python/python.ts, `mapPyProjectDependencies`: each PEP 621 dependency
string is split by the regex into a leading `[a-zA-Z0-9_-]+` identifier and
the remaining constraint suffix; an empty suffix is replaced by the wildcard
`"*"` (the `match[2] || "*"` truthiness), and a string not starting with an
identifier character contributes nothing. -/
def mapPyProjectDependencies : Option (List String) →
    List (String × PackageDependencySpec)
  | none => []
  | some deps =>
    deps.foldl
      (fun acc dep =>
        let cs := dep.data
        let ident := cs.takeWhile isIdentChar
        if ident.isEmpty then acc
        else
          let name := ofChars ident
          let rest := ofChars (cs.drop ident.length)
          let version := if rest == "" then "*" else rest
          mapSet acc name { name := name, version := version, kind := "prod" })
      []

/-- python/python.ts, `mapPoetryDependencies`: tag every entry of a Poetry
dependency table with its kind; an absent table contributes nothing. -/
def mapPoetryDependencies (o : Option (List (String × String)))
    (kind : String) : List (String × PackageDependencySpec) :=
  match o with
  | none => []
  | some l =>
    l.map (fun e =>
      (e.1, { name := e.1, version := e.2, kind := kind :
              PackageDependencySpec }))

/-- The `new Map([...prod, ...dev])` merge of python/python.ts: later
entries overwrite earlier ones at their original position. -/
def mergePoetryDependencies (prod dev : Option (List (String × String))) :
    List (String × PackageDependencySpec) :=
  (mapPoetryDependencies prod "prod" ++ mapPoetryDependencies dev "dev").foldl
    (fun acc e => mapSet acc e.1 e.2) []

/-- The setup.py field pattern `field\s*=\s*["']([^"']+)["']` of
python/python.ts: literal field name, optional whitespace, `=`, optional
whitespace, either quote, a nonempty run free of both quotes, either quote.
Returns the consumed length, the text of the `field\s*=\s*` region (group 1
of the update patterns), and the quoted capture. -/
def fieldStringAssign (field : Chars) (s : Chars) :
    Option (Nat × Chars × Chars) :=
  match dropLit field s with
  | none => none
  | some r1 =>
    let ws1 := r1.takeWhile isWsChar
    match r1.drop ws1.length with
    | '=' :: r3 =>
      let ws2 := r3.takeWhile isWsChar
      match r3.drop ws2.length with
      | q :: r5 =>
        if isPyQuote q then
          let inner := r5.takeWhile (fun c => !(isPyQuote c))
          if inner.isEmpty then none
          else
            match r5.drop inner.length with
            | _ :: _ =>
              some (field.length + ws1.length + 1 + ws2.length + 1 +
                      inner.length + 1,
                    field ++ ws1 ++ '=' :: ws2, inner)
            | [] => none
        else none
      | [] => none
    | _ => none

/-- `content.match(regex)?.[1]` for the setup.py field patterns: capture of
the leftmost match. -/
def findFieldCapture (field : Chars) (content : Chars) : Option Chars :=
  match findMatch (fieldStringAssign field) content with
  | some (_, _, _, cap) => some cap
  | none => none

def nameLit : Chars := [ 'n', 'a', 'm', 'e' ]
def versionLit : Chars := [ 'v', 'e', 'r', 's', 'i', 'o', 'n' ]

/-- The setup.py half of python/python.ts `tryLoadPythonPackage`: regex
extraction of `name` and `version`, empty dependency map, `undefined` when
setup.py is absent or carries no name match.  Read errors are caught. -/
def trySetupPyPackage (fs : FileSystem) (root relativePath : String) :
    Option Package :=
  let setupPyPath := resolvePath3 root relativePath "setup.py"
  if isPathAccessible fs setupPyPath then
    match lookupFile fs setupPyPath with
    | none => none
    | some content =>
      match findFieldCapture nameLit content.data with
      | some nameCap =>
        some
          { name := some (ofChars nameCap)
            version := some
              (match findFieldCapture versionLit content.data with
               | some v => ofChars v
               | none => "0.0.0")
            relativePath := relativePath
            dependencies := [] }
      | none => none
  else none

/-- The pyproject.toml half of python/python.ts `tryLoadPythonPackage`:
PEP 621 schema before Poetry schema, each gated on a truthy name; a parse
failure, a missing file, or no truthy name all yield `none` (the source
swallows every throw of this block in one catch and falls through). -/
def tryPyprojectPackage (parsePy : String → Option PyProjectToml)
    (fs : FileSystem) (root relativePath : String) : Option Package :=
  let pyprojectPath := resolvePath3 root relativePath "pyproject.toml"
  if isPathAccessible fs pyprojectPath then
    match lookupFile fs pyprojectPath with
    | none => none
    | some content =>
      match parsePy content with
      | none => none
      | some config =>
        if truthyStr (config.project.bind (fun p => p.name)) then
          some
            { name := config.project.bind (fun p => p.name)
              version := some (orDefaultVersion
                (config.project.bind (fun p => p.version)))
              relativePath := relativePath
              dependencies := mapPyProjectDependencies
                (config.project.bind (fun p => p.dependencies)) }
        else if truthyStr (config.toolPoetry.bind (fun p => p.name)) then
          some
            { name := config.toolPoetry.bind (fun p => p.name)
              version := some (orDefaultVersion
                (config.toolPoetry.bind (fun p => p.version)))
              relativePath := relativePath
              dependencies := mergePoetryDependencies
                (config.toolPoetry.bind (fun p => p.dependencies))
                (config.toolPoetry.bind (fun p => p.devDependencies)) }
        else none
  else none

/-- python/python.ts, `tryLoadPythonPackage`: pyproject.toml first, any
failure during that attempt swallowed, then the setup.py fallback; the
result is a total `Option`, so no error ever escapes to the caller. -/
def tryLoadPythonPackage (parsePy : String → Option PyProjectToml)
    (fs : FileSystem) (root relativePath : String) : Option Package :=
  match tryPyprojectPackage parsePy fs root relativePath with
  | some p => some p
  | none => trySetupPyPackage fs root relativePath

/-! ## Package discovery and the per-ecosystem load operations -/

/-- The pattern argument of the glob collaborator: the sources pass either a
single string or a list of patterns. -/
inductive Patterns where
  | single (p : String)
  | many (ps : List String)
deriving DecidableEq

structure GlobOptions where
  baseDir : String
  onlyDirectories : Bool
  ignore : List String
deriving DecidableEq

/-- The host glob collaborator (spec section 6): order-preserving pattern
expansion into relative directory paths. -/
abbrev Glob := Patterns → GlobOptions → List String

/-- utils.ts, `findPackagesFromPattern`: expand the pattern excluding
node_modules, try the Node reader on every candidate in glob order, drop
the `undefined` results; a reader error rejects the whole scan, as
`Promise.all` does. -/
def findPackagesFromPattern (glob : Glob)
    (parseNodePkg : String → Option NodePkgJson) (fs : FileSystem)
    (root : String) (pattern : Patterns) :
    Except ChronusError (List Package) := do
  let packageRoots := glob pattern
    { baseDir := root, onlyDirectories := true,
      ignore := ["**/node_modules"] }
  let packages ← packageRoots.mapM (tryLoadNodePackage parseNodePkg fs root)
  return packages.filterMap id

/-- python/python.ts, `findPythonPackages`: same shape with the Python
reader, a wider ignore list, and no error channel (the reader is total). -/
def findPythonPackages (glob : Glob)
    (parsePy : String → Option PyProjectToml) (fs : FileSystem)
    (root : String) (pattern : Patterns) : List Package :=
  let packageRoots := glob pattern
    { baseDir := root, onlyDirectories := true,
      ignore := ["**/node_modules", "**/__pycache__", "**/dist",
                 "**/build", "**/*.egg-info"] }
  (packageRoots.map (tryLoadPythonPackage parsePy fs root)).filterMap id

/-- python/python.ts, `PythonWorkspaceManager.load`: always discovers with
the hard-wired pattern list `["sdk/**"]`; the config argument passed by
loadWorkspace is not in the parameter list of the source method and is
therefore ignored. -/
def pythonLoad (glob : Glob) (parsePy : String → Option PyProjectToml)
    (fs : FileSystem) (root : String) (_config : WorkspaceManagerConfig) :
    Workspace :=
  { type := "python"
    path := root
    packages := findPythonPackages glob parsePy fs root
      (Patterns.many ["sdk/**"]) }

/-- npm.ts, `createNpmWorkspaceManager().load`: read and parse the root
package.json (errors propagate), demand an array `workspaces` field, expand
every pattern with the Node discovery, flatten in pattern order; the config
argument is ignored just as in the Python manager. -/
def npmLoad (parsePkg : String → Option PackageJsonWs)
    (parseNodePkg : String → Option NodePkgJson) (glob : Glob)
    (fs : FileSystem) (root : String) (_config : WorkspaceManagerConfig) :
    Except ChronusError Workspace := do
  let content ← readFile fs (joinPaths root workspaceFileName)
  match parsePkg content with
  | none => Except.error { message := "YAML parse failure" }
  | some pj =>
    match pj.workspaces with
    | WorkspacesField.absent =>
      Except.error
        { message := "workspaces entry missing in " ++ workspaceFileName }
    | WorkspacesField.notArray =>
      Except.error
        { message := "workspaces is not an array in " ++ workspaceFileName }
    | WorkspacesField.arr patterns => do
      let pkgss ← patterns.mapM (fun p =>
        findPackagesFromPattern glob parseNodePkg fs root
          (Patterns.single p))
      return { type := "npm", path := root, packages := pkgss.flatten }

/-! ## Manifest patcher (python/python.ts)

Each matcher embeds one regex of the source; its payload is the replacement
text assembled from the capture groups, so `replaceFirst`/`replaceAll`
mirror the non-global/global `String.replace` calls. -/

def versionColonLit : Chars :=
  [ 'v', 'e', 'r', 's', 'i', 'o', 'n', ':' ]

/-- `/(version:\s*)[\d.]+/` with replacement `$1 ++ newVersion`. -/
def versionColonMatcher (newVersion : Chars) (s : Chars) :
    Option (Nat × Chars) :=
  match dropLit versionColonLit s with
  | none => none
  | some r1 =>
    let ws := r1.takeWhile isWsChar
    let digits := (r1.drop ws.length).takeWhile isVersionChar
    if digits.isEmpty then none
    else
      some (versionColonLit.length + ws.length + digits.length,
            versionColonLit ++ ws ++ newVersion)

/-- The `version\s*=\s*"([^"]+)"` tail of the table-scoped TOML version
patterns; the payload is the text of the `version\s*=\s*` region. -/
def tomlVersionAssign (s : Chars) : Option (Nat × Chars) :=
  match dropLit versionLit s with
  | none => none
  | some r1 =>
    let ws1 := r1.takeWhile isWsChar
    match r1.drop ws1.length with
    | '=' :: r3 =>
      let ws2 := r3.takeWhile isWsChar
      match r3.drop ws2.length with
      | '"' :: r5 =>
        let inner := r5.takeWhile (fun c => !(c == '"'))
        if inner.isEmpty then none
        else
          match r5.drop inner.length with
          | _ :: _ =>
            some (versionLit.length + ws1.length + 1 + ws2.length + 1 +
                    inner.length + 1,
                  versionLit ++ ws1 ++ '=' :: ws2)
          | [] => none
      | _ => none
    | _ => none

/-- `/(\[header\][\s\S]*?)(version\s*=\s*)"([^"]+)"/` with replacement
`$1 ++ $2 ++ quoted newVersion`: the lazy gap runs from the end of the
header literal to the nearest following TOML version assignment, wherever
that assignment lies. -/
def tableScopedVersionMatcher (header : Chars) (newVersion : Chars)
    (s : Chars) : Option (Nat × Chars) :=
  match dropLit header s with
  | none => none
  | some rest =>
    match findMatch tomlVersionAssign rest with
    | none => none
    | some (gap, len, assignText) =>
      some (header.length + gap + len,
            header ++ rest.take gap ++ assignText ++
              '"' :: (newVersion ++ ['"']))

def projectHeaderLit : Chars :=
  [ '[', 'p', 'r', 'o', 'j', 'e', 'c', 't', ']' ]

def poetryHeaderLit : Chars :=
  [ '[', 't', 'o', 'o', 'l', '.', 'p', 'o', 'e', 't', 'r', 'y', ']' ]

/-- python/python.ts, `updatePyprojectVersion`: the `version:` form first
(one occurrence); when the text is unchanged, the `[project]`-anchored TOML
form; when still unchanged, the `[tool.poetry]`-anchored TOML form. -/
def updatePyprojectVersionCore (content newVersion : Chars) : Chars :=
  let result := replaceFirst (versionColonMatcher newVersion) content
  if result == content then
    let result2 :=
      replaceFirst (tableScopedVersionMatcher projectHeaderLit newVersion)
        content
    if result2 == content then
      replaceFirst (tableScopedVersionMatcher poetryHeaderLit newVersion)
        content
    else result2
  else result

def updatePyprojectVersion (content newVersion : String) : String :=
  ofChars (updatePyprojectVersionCore content.data newVersion.data)

/-- The tail `:\s*[\d.]+` shared by both alternatives of the YAML dependency
pattern; `consumed` counts the characters of the chosen alternative. -/
def yamlDepTail (dep newVersion : Chars) (consumed : Nat) (r : Chars) :
    Option (Nat × Chars) :=
  match r with
  | ':' :: r1 =>
    let ws := r1.takeWhile isWsChar
    let digits := (r1.drop ws.length).takeWhile isVersionChar
    if digits.isEmpty then none
    else
      some (consumed + 1 + ws.length + digits.length,
            dep ++ ':' :: ' ' :: newVersion)
  | _ => none

/-- `/(dep|"dep"):\s*[\d.]+/g` with the fixed replacement
`dep ++ ": " ++ newVersion`; the alternatives are tried left to right at
each position, as the regex engine does. -/
def yamlDepMatcher (dep newVersion : Chars) (s : Chars) :
    Option (Nat × Chars) :=
  let quoted :=
    match s with
    | '"' :: s1 =>
      match dropLit dep s1 with
      | none => none
      | some r2 =>
        match r2 with
        | '"' :: r3 => yamlDepTail dep newVersion (dep.length + 2) r3
        | _ => none
    | _ => none
  match dropLit dep s with
  | some r =>
    match yamlDepTail dep newVersion dep.length r with
    | some res => some res
    | none => quoted
  | none => quoted

/-- `/(dep\s*=\s*)"([^"]+)"/g` with replacement `$1 ++ quoted newVersion`. -/
def poetryDepMatcher (dep newVersion : Chars) (s : Chars) :
    Option (Nat × Chars) :=
  match dropLit dep s with
  | none => none
  | some r1 =>
    let ws1 := r1.takeWhile isWsChar
    match r1.drop ws1.length with
    | '=' :: r3 =>
      let ws2 := r3.takeWhile isWsChar
      match r3.drop ws2.length with
      | '"' :: r5 =>
        let inner := r5.takeWhile (fun c => !(c == '"'))
        if inner.isEmpty then none
        else
          match r5.drop inner.length with
          | _ :: _ =>
            some (dep.length + ws1.length + 1 + ws2.length + 1 +
                    inner.length + 1,
                  dep ++ ws1 ++ '=' :: ws2 ++ '"' :: (newVersion ++ ['"']))
          | [] => none
      | _ => none
    | _ => none

/-- `/("dep[^"]*")/g` with replacement `quoted (dep ++ ">=" ++ newVersion)`,
the lossy PEP 621 rewrite. -/
def pep621DepMatcher (dep newVersion : Chars) (s : Chars) :
    Option (Nat × Chars) :=
  match s with
  | '"' :: s1 =>
    match dropLit dep s1 with
    | none => none
    | some r1 =>
      let inner := r1.takeWhile (fun c => !(c == '"'))
      match r1.drop inner.length with
      | _ :: _ =>
        some (1 + dep.length + inner.length + 1,
              '"' :: (dep ++ '>' :: '=' :: (newVersion ++ ['"'])))
      | [] => none
  | _ => none

/-- python/python.ts, `updatePyprojectDependency`: the YAML form globally;
when the text is unchanged, the Poetry assignment form globally and then the
PEP 621 array-entry form globally on its output. -/
def updatePyprojectDependencyCore (content dep newVersion : Chars) : Chars :=
  let result := replaceAll (yamlDepMatcher dep newVersion) content
  if result == content then
    let result2 := replaceAll (poetryDepMatcher dep newVersion) content
    replaceAll (pep621DepMatcher dep newVersion) result2
  else result

def updatePyprojectDependency (content depName newVersion : String) :
    String :=
  ofChars
    (updatePyprojectDependencyCore content.data depName.data newVersion.data)

/-- The matcher of `/(version\s*=\s*)["']([^"']+)["']/` with replacement
`$1 ++ double-quoted newVersion`. -/
def setupPyVersionMatcher (newVersion : Chars) (s : Chars) :
    Option (Nat × Chars) :=
  match fieldStringAssign versionLit s with
  | some (n, g1, _) => some (n, g1 ++ '"' :: (newVersion ++ ['"']))
  | none => none

/-- python/python.ts, `updateSetupPyVersion`: the matcher above, once,
normalising the quotes to double quotes. -/
def updateSetupPyVersionCore (content newVersion : Chars) : Chars :=
  replaceFirst (setupPyVersionMatcher newVersion) content

def updateSetupPyVersion (content newVersion : String) : String :=
  ofChars (updateSetupPyVersionCore content.data newVersion.data)

/-- `/["']dep([><=!]+)[^"']*["']/g` with the fixed replacement
`quoted (dep ++ ">=" ++ newVersion)`. -/
def setupPyDepMatcher (dep newVersion : Chars) (s : Chars) :
    Option (Nat × Chars) :=
  match s with
  | q :: s1 =>
    if isPyQuote q then
      match dropLit dep s1 with
      | none => none
      | some r1 =>
        let ops := r1.takeWhile isOpChar
        if ops.isEmpty then none
        else
          let junk := (r1.drop ops.length).takeWhile (fun c => !(isPyQuote c))
          match (r1.drop ops.length).drop junk.length with
          | _ :: _ =>
            some (1 + dep.length + ops.length + junk.length + 1,
                  '"' :: (dep ++ '>' :: '=' :: (newVersion ++ ['"'])))
          | [] => none
    else none
  | [] => none

/-- python/python.ts, `updateSetupPyDependency`. -/
def updateSetupPyDependencyCore (content dep newVersion : Chars) : Chars :=
  replaceAll (setupPyDepMatcher dep newVersion) content

def updateSetupPyDependency (content depName newVersion : String) : String :=
  ofChars
    (updateSetupPyDependencyCore content.data depName.data newVersion.data)

/-- The `if (patchRequest.newVersion)` guard of the source: the version
rewrite runs only on a truthy (present and nonempty) new version. -/
def applyVersionPatch (rewrite : String → String → String)
    (newVersion? : Option String) (content : String) : String :=
  match newVersion? with
  | some v => if v == "" then content else rewrite content v
  | none => content

/-- python/python.ts, `PythonWorkspaceManager.updateVersionsForPackage`:
pyproject.toml preferred, else setup.py, else nothing; the result is the
write performed (path and full new content), `none` when no file was
written.  The function is total: no error is raised on a missing
manifest. -/
def updateVersionsForPackage (fs : FileSystem)
    (workspacePath pkgRelativePath : String) (patch : PatchPackageVersion) :
    Option (String × String) :=
  let pyprojectPath :=
    resolvePath3 workspacePath pkgRelativePath "pyproject.toml"
  if isPathAccessible fs pyprojectPath then
    match lookupFile fs pyprojectPath with
    | none => none
    | some content =>
      let c1 := applyVersionPatch updatePyprojectVersion patch.newVersion
        content
      let c2 := patch.dependenciesVersions.foldl
        (fun acc dv => updatePyprojectDependency acc dv.1 dv.2) c1
      some (pyprojectPath, c2)
  else
    let setupPyPath := resolvePath3 workspacePath pkgRelativePath "setup.py"
    if isPathAccessible fs setupPyPath then
      match lookupFile fs setupPyPath with
      | none => none
      | some content =>
        let c1 := applyVersionPatch updateSetupPyVersion patch.newVersion
          content
        let c2 := patch.dependenciesVersions.foldl
          (fun acc dv => updateSetupPyDependency acc dv.1 dv.2) c1
        some (setupPyPath, c2)
    else none

/-! ## Concrete instances of the external collaborators

Used by the witness and counterexample theorems below; each parser table is
a finite instance of the deserialization collaborator (spec section 6),
mapping the exact file contents of the accompanying file system to their
parsed shapes.  The instances are deliberately per-claim and not shared. -/

def exPredFalseC3 : String → Bool := fun _ => false

def exEcosC3 : List WorkspaceManager :=
  ecosystems exPredFalseC3 exPredFalseC3 exPredFalseC3 exPredFalseC3
    exPredFalseC3

def exParsePkgC2 : String → Option PackageJsonWs := fun s =>
  if s == "A" then some { workspaces := WorkspacesField.absent } else none

def exFsC2 : FileSystem := [(("proj/package.json"), ("A"))]

def exParseNodeC4 : String → Option NodePkgJson := fun s =>
  if s == "NA" then some { name := some ("pkg-a"), version := none }
  else none

def exFsNodeC4 : FileSystem := [(("root/p/package.json"), ("NA"))]

def exPkgC4 : Package :=
  { name := some ("pkg-a"), version := none, relativePath := ("p"),
    dependencies := [] }

def exParsePyC4 : String → Option PyProjectToml := fun s =>
  if s == "PA" then
    some { project := some { name := some ("pkg-a"), version := none,
                             dependencies := none },
           toolPoetry := none }
  else if s == "PB" then
    some { project := none,
           toolPoetry := some { name := some ("pkg-b"), version := none,
                                dependencies := none,
                                devDependencies := none } }
  else none

def exFsPyC4 : FileSystem :=
  [(("proj/sdk/a/pyproject.toml"), ("PA")),
   (("proj/sdk/b/pyproject.toml"), ("PB")),
   (("proj/sdk/c/setup.py"), ("setup(name='pkg-c')"))]

def exParseNodeC5 : String → Option NodePkgJson := fun s =>
  if s == "NB" then some { name := none, version := none } else none

def exFsNodeC5 : FileSystem := [(("root/q/package.json"), ("NB"))]

def exPkgC5 : Package :=
  { name := none, version := none, relativePath := ("q"),
    dependencies := [] }

def exParsePyC5 : String → Option PyProjectToml := fun s =>
  if s == "PC" then
    some { project := some { name := some ("pkg-c"), version := some ("1.0"),
                             dependencies := none },
           toolPoetry := none }
  else none

def exFsPyC5 : FileSystem := [(("w/sdk/c/pyproject.toml"), ("PC"))]

def exParsePyBadC6 : String → Option PyProjectToml := fun _ => none

def exParsePyNoNameC6 : String → Option PyProjectToml := fun s =>
  if s == "PN" then
    some { project := some { name := none, version := some ("1.0"),
                             dependencies := none },
           toolPoetry := none }
  else none

def exFsC6 : FileSystem :=
  [(("proj/sdk/a/pyproject.toml"), ("garbage")),
   (("proj/sdk/n/pyproject.toml"), ("PN")),
   (("proj/sdk/b/setup.py"), ("setup(version=\"1.0.0\")"))]

def exFsC7 : FileSystem := [(("proj/sdk/a/pyproject.toml"), ("hello world"))]

def exFsC7b : FileSystem := [(("proj/sdk/b/setup.py"), ("hello world"))]

def exPatchC7 : PatchPackageVersion :=
  { newVersion := some ("9.9.9"),
    dependenciesVersions := [(("pkg-x"), ("3.0.0"))] }

def exContentC8 : String :=
  "[project]\nname = \"x\"\n[tool.other]\nversion = \"9.9\"\n[tool.poetry]\nversion = \"1.0\"\n"

def exExpectedC8 : String :=
  "[project]\nname = \"x\"\n[tool.other]\nversion = \"2.0.0\"\n[tool.poetry]\nversion = \"1.0\"\n"

/-- The full text of the `[project]` table of `exContentC8` (it ends where
the `[tool.other]` header starts). -/
def exProjectTableC8 : String := "[project]\nname = \"x\"\n"

def exYamlContentC8 : String := "version: 1.0.0\nname: x\n"

def exGlobC9 : Glob := fun pat _ =>
  match pat with
  | Patterns.many ps =>
    if ps == [("sdk/**")] then [("sdk/pkg-a")]
    else if ps == [("other/**")] then [("other/pkg-b")]
    else []
  | Patterns.single _ => []

def exParsePyC9 : String → Option PyProjectToml := fun s =>
  if s == "A" then
    some { project := some { name := some ("pkg-a"), version := some ("1.0.0"),
                             dependencies := none },
           toolPoetry := none }
  else if s == "B" then
    some { project := some { name := some ("pkg-b"), version := some ("1.0.0"),
                             dependencies := none },
           toolPoetry := none }
  else none

def exFsC9 : FileSystem :=
  [(("proj/sdk/pkg-a/pyproject.toml"), ("A")),
   (("proj/other/pkg-b/pyproject.toml"), ("B"))]

def exCfgC9 : WorkspaceManagerConfig :=
  { packagePatterns := some [("other/**")] }

def exPatchC10 : PatchPackageVersion :=
  { newVersion := some ("2.0.0"),
    dependenciesVersions := [(("pkg-y"), ("1.0.0"))] }

/-! ## Helper lemmas -/

theorem ofChars_data (s : String) : ofChars s.data = s := rfl

theorem replaceFirst_of_findMatch_none {m : Chars → Option (Nat × Chars)}
    {l : Chars} (h : findMatch m l = none) : replaceFirst m l = l := by
  simp [replaceFirst, h]

theorem replaceAll_of_findMatch_none {m : Chars → Option (Nat × Chars)}
    {l : Chars} (h : findMatch m l = none) : replaceAll m l = l := by
  cases hl : l.length <;> simp [replaceAll, replaceAllFuel, hl, h]

theorem lookup_setContent_isSome (fs : FileSystem) (p c q : String) :
    (lookupFile (setContent fs p c) q).isSome = (lookupFile fs q).isSome := by
  induction fs with
  | nil => rfl
  | cons e rest ih =>
    obtain ⟨k, v⟩ := e
    simp only [setContent, lookupFile, List.lookup]
    cases hq : q == k
    · simpa [hq] using ih
    · simp [hq]

theorem truthyStr_iff {o : Option String} :
    truthyStr o = true ↔ ∃ s, o = some s ∧ s ≠ "" := by
  cases o with
  | none => simp [truthyStr]
  | some s => simp [truthyStr]

theorem findMatch_none_of_matcher_none {m : Chars → Option (Nat × α)}
    (hm : ∀ s, m s = none) (l : Chars) : findMatch m l = none := by
  induction l with
  | nil => simp [findMatch, hm]
  | cons c rest ih => simp [findMatch, hm, ih]

theorem findMatch_none_of_not_contains {pat : Chars}
    {m : Chars → Option (Nat × α)}
    (hm : ∀ s, pat.isPrefixOf s = false → m s = none) :
    ∀ l, containsSub pat l = false → findMatch m l = none := by
  intro l
  induction l with
  | nil =>
    intro h
    simp only [containsSub] at h
    simp [findMatch, hm _ h]
  | cons c rest ih =>
    intro h
    simp only [containsSub, Bool.or_eq_false_iff] at h
    simp [findMatch, hm _ h.1, ih h.2]

theorem foldl_update_id (u : String → String → String → String)
    (content : String) (l : List (String × String))
    (h : ∀ d v, (d, v) ∈ l → u content d v = content) :
    l.foldl (fun acc dv => u acc dv.1 dv.2) content = content := by
  induction l with
  | nil => rfl
  | cons e rest ih =>
    obtain ⟨d0, v0⟩ := e
    simp only [List.foldl_cons]
    rw [h d0 v0 (List.mem_cons_self _ _)]
    exact ih (fun d v hm => h d v (List.mem_cons_of_mem _ hm))

/-! ## Claim theorems -/

/-- C1: resolving with `"auto"` (or no type) runs registry detection, which
iterates the fixed registry order pnpm, rush, npm (node), cargo, pip/python
and returns the first manager whose predicate holds on the root; when every
predicate is false the no-workspace-detected error is raised.  The equation
holds for every assignment of the five detection predicates and every root,
so a root satisfying two predicates always resolves to the one earlier in
the registry, independently of anything else. -/
theorem c1_auto_detection_priority
    (pnpmIs rushIs nodeIs cargoIs pipIs : String → Bool) (root : String) :
    getWorkspaceManager (ecosystems pnpmIs rushIs nodeIs cargoIs pipIs)
        root none
      = findWorkspaceManager (ecosystems pnpmIs rushIs nodeIs cargoIs pipIs)
          root
  ∧ getWorkspaceManager (ecosystems pnpmIs rushIs nodeIs cargoIs pipIs)
        root (some ("auto"))
      = findWorkspaceManager (ecosystems pnpmIs rushIs nodeIs cargoIs pipIs)
          root
  ∧ findWorkspaceManager (ecosystems pnpmIs rushIs nodeIs cargoIs pipIs)
        root
      = (if pnpmIs root then
           Except.ok { type := "pnpm", aliases := [], is := pnpmIs }
         else if rushIs root then
           Except.ok { type := "rush", aliases := [], is := rushIs }
         else if nodeIs root then
           Except.ok { type := "npm", aliases := [], is := nodeIs }
         else if cargoIs root then
           Except.ok { type := "cargo", aliases := [], is := cargoIs }
         else if pipIs root then
           Except.ok { type := "python", aliases := ["py"], is := pipIs }
         else Except.error noWorkspaceErr) := by
  refine ⟨rfl, rfl, ?_⟩
  simp only [ecosystems, findWorkspaceManager]

/-- C3: a forced ecosystem name resolves purely by canonical type or
registered alias: the result does not depend on the root, nor on any
manager's detection predicate (replacing every `is` field commutes with the
resolution), and the outcome is either some registered manager matching the
name, or the unknown-workspace-type error exactly when no registered type
or alias matches. -/
theorem c3_forced_type_bypasses_detection (ecos : List WorkspaceManager)
    (root secondRoot t : String) (ht : t ≠ "auto") :
    getWorkspaceManager ecos root (some t)
      = getWorkspaceManager ecos secondRoot (some t)
  ∧ (∀ f : WorkspaceManager → String → Bool,
      getWorkspaceManager (ecos.map (fun m => { m with is := f m })) root
          (some t)
        = Except.map (fun m => { m with is := f m })
            (getWorkspaceManager ecos root (some t)))
  ∧ ((∃ e, e ∈ ecos ∧ getWorkspaceManager ecos root (some t) = Except.ok e
        ∧ (e.aliases.contains t = true ∨ e.type = t))
     ∨ ((∀ e, e ∈ ecos → e.aliases.contains t = false ∧ e.type ≠ t)
        ∧ getWorkspaceManager ecos root (some t)
            = Except.error (unknownTypeErr ecos t))) := by
  have hb : (t == "auto") = false := by
    simpa using ht
  simp only [getWorkspaceManager, hb, Bool.false_eq_true, if_false]
  refine ⟨trivial, ?_, ?_⟩
  · intro f
    rw [List.find?_map]
    have hpred :
        ((fun e : WorkspaceManager => e.aliases.contains t || e.type == t) ∘
          (fun m => { m with is := f m }))
          = (fun e : WorkspaceManager =>
              e.aliases.contains t || e.type == t) := rfl
    rw [hpred]
    cases h : ecos.find?
        (fun e => e.aliases.contains t || e.type == t) with
    | some e => simp [h, Except.map]
    | none =>
      simp only [h, Except.map, unknownTypeErr, List.map_map]
      rfl
  · cases h : ecos.find?
        (fun e => e.aliases.contains t || e.type == t) with
    | some e =>
      left
      have hmem := List.mem_of_find?_eq_some h
      have hp := List.find?_some h
      refine ⟨e, hmem, by simp [h], ?_⟩
      simpa [Bool.or_eq_true] using hp
    | none =>
      right
      refine ⟨?_, by simp [h]⟩
      intro e he
      have := List.find?_eq_none.mp h e he
      simpa [Bool.or_eq_true, not_or] using this

/-- Closed instance of `c3_forced_type_bypasses_detection`: forcing the
alias `py` on two different roots yields the same resolution. -/
theorem c3_witness :
    getWorkspaceManager exEcosC3 ("a") (some ("py"))
      = getWorkspaceManager exEcosC3 ("b") (some ("py")) :=
  (c3_forced_type_bypasses_detection exEcosC3 ("a") ("b") ("py")
    (by decide)).1

/-- C2 counterexample: the claim asserts that every ecosystem's `is(root)`
is true whenever one of its marker files exists, independent of content (for
npm: package.json).  Here package.json exists at the root, yet the npm
predicate is false, because the parsed file (per npm.ts) carries no
array-valued `workspaces` field. -/
theorem c2_counterexample :
    isPathAccessible exFsC2 (joinPaths ("proj") workspaceFileName) = true
  ∧ npmIs exParsePkgC2 exFsC2 ("proj") = false := by
  exact ⟨by decide, by decide⟩

/-- C2 (amended): the Python predicate is true iff one of its three marker
files exists at the root, and it is insensitive to every file's content;
the npm predicate additionally requires package.json to parse and to carry
an array-valued `workspaces` field. -/
theorem c2_marker_detection (parse : String → Option PackageJsonWs)
    (fs : FileSystem) (dir p c : String) :
    (pythonIs fs dir = true ↔
       (isPathAccessible fs (joinPaths dir ("setup.py")) = true
        ∨ isPathAccessible fs (joinPaths dir ("pyproject.toml")) = true
        ∨ isPathAccessible fs (joinPaths dir ("requirements.txt")) = true))
  ∧ pythonIs (setContent fs p c) dir = pythonIs fs dir
  ∧ (npmIs parse fs dir = true ↔
      ∃ content pj patterns,
        lookupFile fs (joinPaths dir workspaceFileName) = some content
        ∧ parse content = some pj
        ∧ pj.workspaces = WorkspacesField.arr patterns) := by
  refine ⟨by simp [pythonIs, Bool.or_eq_true, or_assoc], ?_, ?_⟩
  · simp [pythonIs, isPathAccessible, lookup_setContent_isSome]
  · cases hl : lookupFile fs (joinPaths dir workspaceFileName) with
    | none => simp [npmIs, readFile, hl]
    | some content =>
      cases hp : parse content with
      | none => simp [npmIs, readFile, hl, hp]
      | some pj =>
        cases hw : pj.workspaces with
        | absent => simp [npmIs, readFile, hl, hp, hw]
        | notArray => simp [npmIs, readFile, hl, hp, hw]
        | arr patterns =>
          simp only [npmIs, readFile, hl, hp, hw]
          constructor
          · intro _
            exact ⟨content, pj, patterns, rfl, hp, hw⟩
          · intro _
            trivial

/-- C4 counterexample: the claim asserts every manifest reader defaults an
absent version to the literal `"0.0.0"`.  The Node reader of utils.ts
copies the parsed `version` field verbatim, so a package.json with a name
and no version yields a Package whose version is absent rather than
`"0.0.0"`. -/
theorem c4_counterexample :
    tryLoadNodePackage exParseNodeC4 exFsNodeC4 ("root") ("p")
      = Except.ok (some exPkgC4)
  ∧ exPkgC4.version ≠ some ("0.0.0") := by
  exact ⟨rfl, by decide⟩

/-- C4 (amended): the three Python reader paths (pyproject.toml PEP 621,
pyproject.toml Poetry, setup.py) default an absent version to `"0.0.0"`
without error, while the Node reader copies `version` verbatim, so an
absent version stays absent there. -/
theorem c4_version_defaulting :
    (∀ (parsePy : String → Option PyProjectToml) (fs : FileSystem)
        (root rel content : String) (cfg : PyProjectToml) (pt : ProjectTable),
      lookupFile fs (resolvePath3 root rel ("pyproject.toml"))
          = some content →
      parsePy content = some cfg →
      cfg.project = some pt →
      truthyStr pt.name = true →
      pt.version = none →
      ∃ pkg, tryLoadPythonPackage parsePy fs root rel = some pkg
        ∧ pkg.version = some ("0.0.0"))
  ∧ (∀ (parsePy : String → Option PyProjectToml) (fs : FileSystem)
        (root rel content : String) (cfg : PyProjectToml) (pt : PoetryTable),
      lookupFile fs (resolvePath3 root rel ("pyproject.toml"))
          = some content →
      parsePy content = some cfg →
      truthyStr (cfg.project.bind (fun p => p.name)) = false →
      cfg.toolPoetry = some pt →
      truthyStr pt.name = true →
      pt.version = none →
      ∃ pkg, tryLoadPythonPackage parsePy fs root rel = some pkg
        ∧ pkg.version = some ("0.0.0"))
  ∧ (∀ (parsePy : String → Option PyProjectToml) (fs : FileSystem)
        (root rel content : String) (cap : Chars),
      lookupFile fs (resolvePath3 root rel ("pyproject.toml")) = none →
      lookupFile fs (resolvePath3 root rel ("setup.py")) = some content →
      findFieldCapture nameLit content.data = some cap →
      findFieldCapture versionLit content.data = none →
      ∃ pkg, tryLoadPythonPackage parsePy fs root rel = some pkg
        ∧ pkg.version = some ("0.0.0"))
  ∧ (∀ (parseN : String → Option NodePkgJson) (fs : FileSystem)
        (root rel content : String) (pj : NodePkgJson),
      lookupFile fs (resolvePath3 root rel workspaceFileName)
          = some content →
      parseN content = some pj →
      tryLoadNodePackage parseN fs root rel
        = Except.ok (some { name := pj.name, version := pj.version,
                            relativePath := rel, dependencies := [] })) := by
  refine ⟨?_, ?_, ?_, ?_⟩
  · intro parsePy fs root rel content cfg pt hlook hparse hproj htruth hver
    have h1 : tryPyprojectPackage parsePy fs root rel
        = some { name := pt.name
                 version := some ("0.0.0")
                 relativePath := rel
                 dependencies :=
                   mapPyProjectDependencies (pt.dependencies) } := by
      simp [tryPyprojectPackage, isPathAccessible, hlook, hparse, hproj,
        htruth, hver, orDefaultVersion]
    refine ⟨{ name := pt.name, version := some ("0.0.0"),
              relativePath := rel,
              dependencies := mapPyProjectDependencies (pt.dependencies) },
            ?_, rfl⟩
    simp [tryLoadPythonPackage, h1]
  · intro parsePy fs root rel content cfg pt hlook hparse hnoproj hpoetry
      htruth hver
    have h1 : tryPyprojectPackage parsePy fs root rel
        = some { name := pt.name
                 version := some ("0.0.0")
                 relativePath := rel
                 dependencies :=
                   mergePoetryDependencies (pt.dependencies)
                     (pt.devDependencies) } := by
      simp [tryPyprojectPackage, isPathAccessible, hlook, hparse, hnoproj,
        hpoetry, htruth, hver, orDefaultVersion]
    refine ⟨{ name := pt.name, version := some ("0.0.0"),
              relativePath := rel,
              dependencies := mergePoetryDependencies (pt.dependencies)
                (pt.devDependencies) },
            ?_, rfl⟩
    simp [tryLoadPythonPackage, h1]
  · intro parsePy fs root rel content cap hnopy hlook hname hver
    have h1 : tryPyprojectPackage parsePy fs root rel = none := by
      simp [tryPyprojectPackage, isPathAccessible, hnopy]
    have h2 : trySetupPyPackage fs root rel
        = some { name := some (ofChars cap)
                 version := some ("0.0.0")
                 relativePath := rel
                 dependencies := [] } := by
      simp [trySetupPyPackage, isPathAccessible, hlook, hname, hver]
    refine ⟨{ name := some (ofChars cap), version := some ("0.0.0"),
              relativePath := rel, dependencies := [] }, ?_, rfl⟩
    simp [tryLoadPythonPackage, h1, h2]
  · intro parseN fs root rel content pj hlook hparse
    simp [tryLoadNodePackage, isPathAccessible, hlook, hparse]

/-- Closed instance of `c4_version_defaulting`: all four reader paths at
concrete manifests without a version field. -/
theorem c4_witness :
    (∃ pkg, tryLoadPythonPackage exParsePyC4 exFsPyC4 ("proj") ("sdk/a")
        = some pkg ∧ pkg.version = some ("0.0.0"))
  ∧ (∃ pkg, tryLoadPythonPackage exParsePyC4 exFsPyC4 ("proj") ("sdk/b")
        = some pkg ∧ pkg.version = some ("0.0.0"))
  ∧ (∃ pkg, tryLoadPythonPackage exParsePyC4 exFsPyC4 ("proj") ("sdk/c")
        = some pkg ∧ pkg.version = some ("0.0.0"))
  ∧ tryLoadNodePackage exParseNodeC4 exFsNodeC4 ("root") ("p")
      = Except.ok (some { name := some ("pkg-a"), version := none,
                          relativePath := ("p"), dependencies := [] }) :=
  ⟨c4_version_defaulting.1 exParsePyC4 exFsPyC4 ("proj") ("sdk/a") ("PA")
      { project := some { name := some ("pkg-a"), version := none,
                          dependencies := none },
        toolPoetry := none }
      { name := some ("pkg-a"), version := none, dependencies := none }
      (by decide) (by decide) rfl (by decide) rfl,
   c4_version_defaulting.2.1 exParsePyC4 exFsPyC4 ("proj") ("sdk/b") ("PB")
      { project := none,
        toolPoetry := some { name := some ("pkg-b"), version := none,
                             dependencies := none, devDependencies := none } }
      { name := some ("pkg-b"), version := none, dependencies := none,
        devDependencies := none }
      (by decide) (by decide) (by decide) rfl (by decide) rfl,
   c4_version_defaulting.2.2.1 exParsePyC4 exFsPyC4 ("proj") ("sdk/c")
      ("setup(name='pkg-c')") (("pkg-c").data)
      (by decide) (by decide) (by decide) (by decide),
   c4_version_defaulting.2.2.2 exParseNodeC4 exFsNodeC4 ("root") ("p")
      ("NA") { name := some ("pkg-a"), version := none }
      (by decide) (by decide)⟩

theorem findMatch_payload {m : Chars → Option (Nat × α)} {P : α → Prop}
    (hm : ∀ s n a, m s = some (n, a) → P a) :
    ∀ l i n a, findMatch m l = some (i, n, a) → P a := by
  intro l
  induction l with
  | nil =>
    intro i n a h
    cases hms : m [] with
    | none => simp [findMatch, hms] at h
    | some p =>
      obtain ⟨n0, a0⟩ := p
      simp only [findMatch, hms, Option.some.injEq, Prod.mk.injEq] at h
      obtain ⟨-, -, rfl⟩ := h
      exact hm _ _ _ hms
  | cons c rest ih =>
    intro i n a h
    cases hms : m (c :: rest) with
    | some p =>
      obtain ⟨n0, a0⟩ := p
      simp only [findMatch, hms, Option.some.injEq, Prod.mk.injEq] at h
      obtain ⟨-, -, rfl⟩ := h
      exact hm _ _ _ hms
    | none =>
      cases hfm : findMatch m rest with
      | none => simp [findMatch, hms, hfm] at h
      | some q =>
        obtain ⟨i0, n0, a0⟩ := q
        simp only [findMatch, hms, hfm, Option.some.injEq,
          Prod.mk.injEq] at h
        obtain ⟨-, -, rfl⟩ := h
        exact ih i0 n0 a0 hfm

theorem fieldStringAssign_cap_ne_nil {field s : Chars} {n : Nat}
    {g1 cap : Chars} (h : fieldStringAssign field s = some (n, g1, cap)) :
    cap ≠ [] := by
  simp only [fieldStringAssign] at h
  repeat' split at h
  all_goals try simp at h
  obtain ⟨-, -, rfl⟩ := h
  simp_all [List.isEmpty_iff]

theorem findFieldCapture_ne_nil {field content cap : Chars}
    (h : findFieldCapture field content = some cap) : cap ≠ [] := by
  unfold findFieldCapture at h
  cases hfm : findMatch (fieldStringAssign field) content with
  | none => rw [hfm] at h; exact absurd h (by simp)
  | some q =>
    obtain ⟨i, n, g1, cap0⟩ := q
    rw [hfm] at h
    have hc : cap0 = cap := by simpa using h
    subst hc
    exact findMatch_payload
      (P := fun a : Chars × Chars => a.2 ≠ [])
      (fun s n a hma => by
        obtain ⟨g, c0⟩ := a
        exact fieldStringAssign_cap_ne_nil hma)
      content i n _ hfm

theorem ofChars_ne_empty {cap : Chars} (h : cap ≠ []) :
    ofChars cap ≠ "" := by
  intro hcontra
  exact h (by simpa [ofChars] using congrArg String.data hcontra)

theorem tryPyprojectPackage_name {parsePy : String → Option PyProjectToml}
    {fs : FileSystem} {root rel : String} {p : Package}
    (h : tryPyprojectPackage parsePy fs root rel = some p) :
    ∃ s, p.name = some s ∧ s ≠ "" := by
  simp only [tryPyprojectPackage] at h
  split at h
  · split at h
    · simp at h
    · split at h
      · simp at h
      · split at h
        · simp only [Option.some.injEq] at h
          subst h
          exact truthyStr_iff.mp (by assumption)
        · split at h
          · simp only [Option.some.injEq] at h
            subst h
            exact truthyStr_iff.mp (by assumption)
          · simp at h
  · simp at h

theorem trySetupPyPackage_name {fs : FileSystem} {root rel : String}
    {p : Package} (h : trySetupPyPackage fs root rel = some p) :
    ∃ s, p.name = some s ∧ s ≠ "" := by
  simp only [trySetupPyPackage] at h
  split at h
  · split at h
    · simp at h
    · split at h
      · simp only [Option.some.injEq] at h
        subst h
        exact ⟨_, rfl, ofChars_ne_empty (findFieldCapture_ne_nil
          (by assumption))⟩
      · simp at h
  · simp at h

/-- C5 counterexample: the claim asserts a manifest without a resolvable
name never yields a Package in any reader, including the Node reader.  The
Node reader of utils.ts performs no name check: a package.json parsing to
an object with no name still yields a Package record (with an absent
name), included in discovery results. -/
theorem c5_counterexample :
    tryLoadNodePackage exParseNodeC5 exFsNodeC5 ("root") ("q")
      = Except.ok (some exPkgC5)
  ∧ exPkgC5.name = none := ⟨rfl, rfl⟩

/-- C5 (amended): the Python readers yield a Package only when a nonempty
name was resolved (pyproject schemas are gated on JavaScript-truthy names
and the setup.py regex captures at least one character), while the Node
reader copies the parsed `name` field verbatim and yields a Package even
when the name is absent. -/
theorem c5_name_gating :
    (∀ (parsePy : String → Option PyProjectToml) (fs : FileSystem)
        (root rel : String) (pkg : Package),
      tryLoadPythonPackage parsePy fs root rel = some pkg →
      ∃ s, pkg.name = some s ∧ s ≠ "")
  ∧ (∀ (parseN : String → Option NodePkgJson) (fs : FileSystem)
        (root rel content : String) (pj : NodePkgJson),
      lookupFile fs (resolvePath3 root rel workspaceFileName)
          = some content →
      parseN content = some pj →
      pj.name = none →
      tryLoadNodePackage parseN fs root rel
        = Except.ok (some { name := none, version := pj.version,
                            relativePath := rel, dependencies := [] })) := by
  constructor
  · intro parsePy fs root rel pkg h
    unfold tryLoadPythonPackage at h
    cases hpy : tryPyprojectPackage parsePy fs root rel with
    | some p =>
      rw [hpy] at h
      obtain rfl : p = pkg := Option.some.inj h
      exact tryPyprojectPackage_name hpy
    | none =>
      rw [hpy] at h
      exact trySetupPyPackage_name h
  · intro parseN fs root rel content pj hlook hparse hname
    simp [tryLoadNodePackage, isPathAccessible, hlook, hparse, hname]

/-- Closed instance of `c5_name_gating`: the Python reader result at a
concrete manifest has a nonempty name, and the Node reader at a concrete
nameless manifest still yields a Package. -/
theorem c5_witness :
    (∃ s, ({ name := some ("pkg-c"), version := some ("1.0"),
             relativePath := ("sdk/c"), dependencies := [] } : Package).name
        = some s ∧ s ≠ "")
  ∧ tryLoadNodePackage exParseNodeC5 exFsNodeC5 ("root") ("q")
      = Except.ok (some { name := none, version := none,
                          relativePath := ("q"), dependencies := [] }) :=
  ⟨c5_name_gating.1 exParsePyC5 exFsPyC5 ("w") ("sdk/c")
      { name := some ("pkg-c"), version := some ("1.0"),
        relativePath := ("sdk/c"), dependencies := [] } (by decide),
   c5_name_gating.2 exParseNodeC5 exFsNodeC5 ("root") ("q") ("NB")
      { name := none, version := none } (by decide) (by decide) rfl⟩

/-- C6: a pyproject.toml that fails to parse, or parses without a truthy
name under either schema, makes `tryLoadPythonPackage` fall through to the
setup.py attempt; when setup.py is absent or carries no name match the
directory contributes no Package.  The embedding is a total function into
`Option Package`, so no failure of the pyproject.toml attempt is ever
surfaced to the caller. -/
theorem c6_pyproject_fallback :
    (∀ (parsePy : String → Option PyProjectToml) (fs : FileSystem)
        (root rel content : String),
      lookupFile fs (resolvePath3 root rel ("pyproject.toml"))
          = some content →
      parsePy content = none →
      tryLoadPythonPackage parsePy fs root rel
        = trySetupPyPackage fs root rel)
  ∧ (∀ (parsePy : String → Option PyProjectToml) (fs : FileSystem)
        (root rel content : String) (cfg : PyProjectToml),
      lookupFile fs (resolvePath3 root rel ("pyproject.toml"))
          = some content →
      parsePy content = some cfg →
      truthyStr (cfg.project.bind (fun p => p.name)) = false →
      truthyStr (cfg.toolPoetry.bind (fun p => p.name)) = false →
      tryLoadPythonPackage parsePy fs root rel
        = trySetupPyPackage fs root rel)
  ∧ (∀ (fs : FileSystem) (root rel : String),
      lookupFile fs (resolvePath3 root rel ("setup.py")) = none →
      trySetupPyPackage fs root rel = none)
  ∧ (∀ (fs : FileSystem) (root rel content : String),
      lookupFile fs (resolvePath3 root rel ("setup.py")) = some content →
      findFieldCapture nameLit content.data = none →
      trySetupPyPackage fs root rel = none) := by
  refine ⟨?_, ?_, ?_, ?_⟩
  · intro parsePy fs root rel content hlook hparse
    have h1 : tryPyprojectPackage parsePy fs root rel = none := by
      simp [tryPyprojectPackage, isPathAccessible, hlook, hparse]
    simp [tryLoadPythonPackage, h1]
  · intro parsePy fs root rel content cfg hlook hparse ht1 ht2
    have h1 : tryPyprojectPackage parsePy fs root rel = none := by
      simp [tryPyprojectPackage, isPathAccessible, hlook, hparse, ht1, ht2]
    simp [tryLoadPythonPackage, h1]
  · intro fs root rel h
    simp [trySetupPyPackage, isPathAccessible, h]
  · intro fs root rel content hlook hcap
    simp [trySetupPyPackage, isPathAccessible, hlook, hcap]

/-- Closed instance of `c6_pyproject_fallback`: an unparsable
pyproject.toml, a parsed one without names, a directory without setup.py,
and a setup.py without a name, at concrete inputs. -/
theorem c6_witness :
    tryLoadPythonPackage exParsePyBadC6 exFsC6 ("proj") ("sdk/a")
      = trySetupPyPackage exFsC6 ("proj") ("sdk/a")
  ∧ tryLoadPythonPackage exParsePyNoNameC6 exFsC6 ("proj") ("sdk/n")
      = trySetupPyPackage exFsC6 ("proj") ("sdk/n")
  ∧ trySetupPyPackage exFsC6 ("proj") ("sdk/a") = none
  ∧ trySetupPyPackage exFsC6 ("proj") ("sdk/b") = none :=
  ⟨c6_pyproject_fallback.1 exParsePyBadC6 exFsC6 ("proj") ("sdk/a")
      ("garbage") (by decide) rfl,
   c6_pyproject_fallback.2.1 exParsePyNoNameC6 exFsC6 ("proj") ("sdk/n")
      ("PN")
      { project := some { name := none, version := some ("1.0"),
                          dependencies := none },
        toolPoetry := none }
      (by decide) (by decide) rfl rfl,
   c6_pyproject_fallback.2.2.1 exFsC6 ("proj") ("sdk/a") (by decide),
   c6_pyproject_fallback.2.2.2 exFsC6 ("proj") ("sdk/b")
      ("setup(version=\"1.0.0\")") (by decide) (by decide)⟩

theorem updatePyprojectVersion_id {content v : String}
    (h1 : findMatch (versionColonMatcher v.data) content.data = none)
    (h2 : findMatch (tableScopedVersionMatcher projectHeaderLit v.data)
        content.data = none)
    (h3 : findMatch (tableScopedVersionMatcher poetryHeaderLit v.data)
        content.data = none) :
    updatePyprojectVersion content v = content := by
  simp [updatePyprojectVersion, updatePyprojectVersionCore,
    replaceFirst_of_findMatch_none h1, replaceFirst_of_findMatch_none h2,
    replaceFirst_of_findMatch_none h3, ofChars_data]

theorem updatePyprojectDependency_id {content d v : String}
    (h1 : findMatch (yamlDepMatcher d.data v.data) content.data = none)
    (h2 : findMatch (poetryDepMatcher d.data v.data) content.data = none)
    (h3 : findMatch (pep621DepMatcher d.data v.data) content.data = none) :
    updatePyprojectDependency content d v = content := by
  simp [updatePyprojectDependency, updatePyprojectDependencyCore,
    replaceAll_of_findMatch_none h1, replaceAll_of_findMatch_none h2,
    replaceAll_of_findMatch_none h3, ofChars_data]

theorem updateSetupPyVersion_id {content v : String}
    (h1 : findMatch (setupPyVersionMatcher v.data) content.data = none) :
    updateSetupPyVersion content v = content := by
  simp [updateSetupPyVersion, updateSetupPyVersionCore,
    replaceFirst_of_findMatch_none h1, ofChars_data]

theorem updateSetupPyDependency_id {content d v : String}
    (h1 : findMatch (setupPyDepMatcher d.data v.data) content.data = none) :
    updateSetupPyDependency content d v = content := by
  simp [updateSetupPyDependency, updateSetupPyDependencyCore,
    replaceAll_of_findMatch_none h1, ofChars_data]

theorem applyVersionPatch_id {rewrite : String → String → String}
    {nv : Option String} {content : String}
    (h : ∀ v, nv = some v → rewrite content v = content) :
    applyVersionPatch rewrite nv content = content := by
  cases hnv : nv with
  | none => simp [applyVersionPatch]
  | some v => simp [applyVersionPatch, h v hnv]

/-- C7: a patch none of whose substitutions matches the manifest text
writes back the file content unchanged, byte for byte, and no error arises;
stated for the pyproject.toml branch and for the setup.py branch of
`updateVersionsForPackage`, with the no-match premises expressed through
the `findMatch` search underlying each of the source's regex rewrites. -/
theorem c7_no_match_roundtrip :
    (∀ (fs : FileSystem) (wsPath rel : String)
        (patch : PatchPackageVersion) (content : String),
      lookupFile fs (resolvePath3 wsPath rel ("pyproject.toml"))
          = some content →
      (∀ v, patch.newVersion = some v →
        findMatch (versionColonMatcher v.data) content.data = none ∧
        findMatch (tableScopedVersionMatcher projectHeaderLit v.data)
            content.data = none ∧
        findMatch (tableScopedVersionMatcher poetryHeaderLit v.data)
            content.data = none) →
      (∀ d v, (d, v) ∈ patch.dependenciesVersions →
        findMatch (yamlDepMatcher d.data v.data) content.data = none ∧
        findMatch (poetryDepMatcher d.data v.data) content.data = none ∧
        findMatch (pep621DepMatcher d.data v.data) content.data = none) →
      updateVersionsForPackage fs wsPath rel patch
        = some (resolvePath3 wsPath rel ("pyproject.toml"), content))
  ∧ (∀ (fs : FileSystem) (wsPath rel : String)
        (patch : PatchPackageVersion) (content : String),
      lookupFile fs (resolvePath3 wsPath rel ("pyproject.toml")) = none →
      lookupFile fs (resolvePath3 wsPath rel ("setup.py")) = some content →
      (∀ v, patch.newVersion = some v →
        findMatch (setupPyVersionMatcher v.data) content.data = none) →
      (∀ d v, (d, v) ∈ patch.dependenciesVersions →
        findMatch (setupPyDepMatcher d.data v.data) content.data = none) →
      updateVersionsForPackage fs wsPath rel patch
        = some (resolvePath3 wsPath rel ("setup.py"), content)) := by
  constructor
  · intro fs wsPath rel patch content hlook hv hd
    have hc1 : applyVersionPatch updatePyprojectVersion patch.newVersion
        content = content :=
      applyVersionPatch_id (fun v hnv => by
        obtain ⟨hm1, hm2, hm3⟩ := hv v hnv
        exact updatePyprojectVersion_id hm1 hm2 hm3)
    have hc2 : patch.dependenciesVersions.foldl
        (fun acc dv => updatePyprojectDependency acc dv.1 dv.2) content
        = content :=
      foldl_update_id updatePyprojectDependency content _
        (fun d v hm => by
          obtain ⟨hm1, hm2, hm3⟩ := hd d v hm
          exact updatePyprojectDependency_id hm1 hm2 hm3)
    simp [updateVersionsForPackage, isPathAccessible, hlook, hc1, hc2]
  · intro fs wsPath rel patch content hnopy hlook hv hd
    have hc1 : applyVersionPatch updateSetupPyVersion patch.newVersion
        content = content :=
      applyVersionPatch_id (fun v hnv =>
        updateSetupPyVersion_id (hv v hnv))
    have hc2 : patch.dependenciesVersions.foldl
        (fun acc dv => updateSetupPyDependency acc dv.1 dv.2) content
        = content :=
      foldl_update_id updateSetupPyDependency content _
        (fun d v hm => updateSetupPyDependency_id (hd d v hm))
    simp [updateVersionsForPackage, isPathAccessible, hnopy, hlook, hc1,
      hc2]

/-- Closed instance of `c7_no_match_roundtrip`: a patch whose version and
dependency names match nothing in the manifest text leaves both a concrete
pyproject.toml and a concrete setup.py byte-identical. -/
theorem c7_witness :
    updateVersionsForPackage exFsC7 ("proj") ("sdk/a") exPatchC7
      = some (("proj/sdk/a/pyproject.toml"), ("hello world"))
  ∧ updateVersionsForPackage exFsC7b ("proj") ("sdk/b") exPatchC7
      = some (("proj/sdk/b/setup.py"), ("hello world")) :=
  ⟨c7_no_match_roundtrip.1 exFsC7 ("proj") ("sdk/a") exPatchC7
      ("hello world") (by decide)
      (fun v hv => by
        have hv2 : some ("9.9.9") = some v := hv
        cases hv2
        exact ⟨by decide, by decide, by decide⟩)
      (fun d v hm => by
        have hm2 : (d, v) ∈ [(("pkg-x"), ("3.0.0"))] := hm
        have h3 := List.mem_singleton.mp hm2
        injection h3 with hd hv
        subst hd
        subst hv
        exact ⟨by decide, by decide, by decide⟩),
   c7_no_match_roundtrip.2 exFsC7b ("proj") ("sdk/b") exPatchC7
      ("hello world") (by decide) (by decide)
      (fun v hv => by
        have hv2 : some ("9.9.9") = some v := hv
        cases hv2
        exact (by decide))
      (fun d v hm => by
        have hm2 : (d, v) ∈ [(("pkg-x"), ("3.0.0"))] := hm
        have h3 := List.mem_singleton.mp hm2
        injection h3 with hd hv
        subst hd
        subst hv
        exact (by decide))⟩

theorem tableScoped_id_of_no_header {header v l : Chars}
    (h : containsSub header l = false) :
    replaceFirst (tableScopedVersionMatcher header v) l = l :=
  replaceFirst_of_findMatch_none
    (findMatch_none_of_not_contains
      (fun s hs => by simp [tableScopedVersionMatcher, dropLit, hs]) l h)

theorem findMatch_none_of_suffix {m : Chars → Option (Nat × α)} :
    ∀ l : Chars, (∀ s, s <:+ l → m s = none) → findMatch m l = none := by
  intro l
  induction l with
  | nil =>
    intro h
    simp [findMatch, h [] (List.suffix_refl _)]
  | cons c rest ih =>
    intro h
    have h1 := h (c :: rest) (List.suffix_refl _)
    have h2 := ih (fun s hs => h s (hs.trans (List.suffix_cons c rest)))
    simp [findMatch, h1, h2]

/-- The anchored table pass is the identity whenever every occurrence of
the header (a suffix of the text starting with the header literal) has no
TOML version assignment anywhere after it; this covers both a text without
the header and a text where the header is never followed by an
assignment. -/
theorem tableScoped_id_of_no_assign {header v l : Chars}
    (h : ∀ s, s <:+ l → header.isPrefixOf s = true →
        findMatch tomlVersionAssign (s.drop header.length) = none) :
    replaceFirst (tableScopedVersionMatcher header v) l = l := by
  apply replaceFirst_of_findMatch_none
  apply findMatch_none_of_suffix
  intro s hs
  by_cases hp : header.isPrefixOf s = true
  · simp [tableScopedVersionMatcher, dropLit, hp, h s hs hp]
  · have hp2 : header.isPrefixOf s = false := by
      cases hb : header.isPrefixOf s
      · rfl
      · exact absurd hb hp
    simp [tableScopedVersionMatcher, dropLit, hp2]

/-- C8 counterexample: the claim asserts a table-scoped substitution never
modifies a same-named version key located in a different table.  In
`exContentC8` the `[project]` table contains no `version` key at all (its
text is `exProjectTableC8`), yet the `[project]`-anchored pass rewrites the
`version` key of the unrelated `[tool.other]` table, because its lazy
`[\s\S]*?` gap runs across table boundaries; the `[tool.poetry]` version is
left at `1.0` while `[tool.other]` now reads `2.0.0`. -/
theorem c8_counterexample :
    updatePyprojectVersion exContentC8 ("2.0.0") = exExpectedC8
  ∧ containsSub versionLit (exProjectTableC8.data) = false := by
  exact ⟨by decide, by decide⟩

/-- C8 (amended): the rewrite order is as claimed (`version:` style first,
first match only; if the text is unchanged the `[project]`-anchored TOML
pass; if still unchanged the `[tool.poetry]`-anchored pass), but the table
passes are anchored rather than scoped: when a header occurs, its pass
rewrites the first `version = "..."` assignment found after the first
header occurrence, wherever that assignment lies — possibly inside a
different, later table — and a pass leaves the text unchanged exactly when
its anchored search fails: when its header does not occur, and also when
the header occurs but no `version = "..."` assignment follows any of its
occurrences. -/
theorem c8_version_rewrite_order (content newVersion : String) :
    (replaceFirst (versionColonMatcher newVersion.data) content.data
        ≠ content.data →
      updatePyprojectVersion content newVersion
        = ofChars (replaceFirst (versionColonMatcher newVersion.data)
            content.data))
  ∧ (replaceFirst (versionColonMatcher newVersion.data) content.data
        = content.data →
     replaceFirst (tableScopedVersionMatcher projectHeaderLit
         newVersion.data) content.data ≠ content.data →
      updatePyprojectVersion content newVersion
        = ofChars (replaceFirst (tableScopedVersionMatcher projectHeaderLit
            newVersion.data) content.data))
  ∧ (replaceFirst (versionColonMatcher newVersion.data) content.data
        = content.data →
     replaceFirst (tableScopedVersionMatcher projectHeaderLit
         newVersion.data) content.data = content.data →
      updatePyprojectVersion content newVersion
        = ofChars (replaceFirst (tableScopedVersionMatcher poetryHeaderLit
            newVersion.data) content.data))
  ∧ (containsSub projectHeaderLit content.data = false →
      replaceFirst (tableScopedVersionMatcher projectHeaderLit
          newVersion.data) content.data = content.data)
  ∧ (containsSub poetryHeaderLit content.data = false →
      replaceFirst (tableScopedVersionMatcher poetryHeaderLit
          newVersion.data) content.data = content.data)
  ∧ ((∀ s, s <:+ content.data →
        projectHeaderLit.isPrefixOf s = true →
        findMatch tomlVersionAssign (s.drop projectHeaderLit.length)
          = none) →
      replaceFirst (tableScopedVersionMatcher projectHeaderLit
          newVersion.data) content.data = content.data)
  ∧ ((∀ s, s <:+ content.data →
        poetryHeaderLit.isPrefixOf s = true →
        findMatch tomlVersionAssign (s.drop poetryHeaderLit.length)
          = none) →
      replaceFirst (tableScopedVersionMatcher poetryHeaderLit
          newVersion.data) content.data = content.data) := by
  refine ⟨?_, ?_, ?_, ?_, ?_, ?_, ?_⟩
  · intro h
    have hb := beq_eq_false_iff_ne.mpr h
    simp [updatePyprojectVersion, updatePyprojectVersionCore, hb]
  · intro h1 h2
    have hb2 := beq_eq_false_iff_ne.mpr h2
    simp [updatePyprojectVersion, updatePyprojectVersionCore, h1, hb2]
  · intro h1 h2
    simp [updatePyprojectVersion, updatePyprojectVersionCore, h1, h2]
  · intro h
    exact tableScoped_id_of_no_header h
  · intro h
    exact tableScoped_id_of_no_header h
  · intro h
    exact tableScoped_id_of_no_assign h
  · intro h
    exact tableScoped_id_of_no_assign h

/-- Closed instance of `c8_version_rewrite_order`: the `version:` pass wins
on a YAML-shaped manifest, the `[project]` pass is the identity on text
without that header, and it is also the identity on a text that contains
the `[project]` header with no version assignment after it. -/
theorem c8_witness :
    updatePyprojectVersion exYamlContentC8 ("2.0.0")
      = ofChars (replaceFirst (versionColonMatcher (("2.0.0")).data)
          (exYamlContentC8.data))
  ∧ replaceFirst (tableScopedVersionMatcher projectHeaderLit
        (("2.0.0")).data) (("nothing")).data = (("nothing")).data
  ∧ replaceFirst (tableScopedVersionMatcher projectHeaderLit
        (("2.0.0")).data) (exProjectTableC8.data)
      = exProjectTableC8.data :=
  ⟨(c8_version_rewrite_order exYamlContentC8 ("2.0.0")).1 (by decide),
   (c8_version_rewrite_order ("nothing") ("2.0.0")).2.2.2.1 (by decide),
   (c8_version_rewrite_order exProjectTableC8 ("2.0.0")).2.2.2.2.2.1
     (fun s hs hp => by
       have hmem : s ∈ (exProjectTableC8.data).tails :=
         (List.mem_tails _ _).mpr hs
       exact (by decide :
         ∀ s ∈ (exProjectTableC8.data).tails,
           projectHeaderLit.isPrefixOf s = true →
           findMatch tomlVersionAssign (s.drop projectHeaderLit.length)
             = none) s hmem hp)⟩

/-- C9 counterexample: the claim asserts a caller-supplied
`packagePatterns` list overrides the ecosystem default.  With a glob
collaborator that expands `sdk/**` to one package directory and `other/**`
to a different one, loading with a config requesting `other/**` still
returns the package found under the default `sdk/**` pattern, even though
expanding the supplied patterns would have found the other package. -/
theorem c9_counterexample :
    (pythonLoad exGlobC9 exParsePyC9 exFsC9 ("proj") exCfgC9).packages.map
        (fun p => p.name) = [some ("pkg-a")]
  ∧ (findPythonPackages exGlobC9 exParsePyC9 exFsC9 ("proj")
        (Patterns.many [("other/**")])).map (fun p => p.name)
      = [some ("pkg-b")] := by
  exact ⟨by decide, by decide⟩

/-- C9 (amended): the load operations ignore the configuration entirely:
the Python manager always discovers with the hard-wired `["sdk/**"]`
pattern list and the npm manager always uses the `workspaces` patterns of
the root package.json, whatever `packagePatterns` the caller supplies. -/
theorem c9_config_ignored (glob : Glob)
    (parsePy : String → Option PyProjectToml)
    (parsePkg : String → Option PackageJsonWs)
    (parseNodePkg : String → Option NodePkgJson)
    (fs : FileSystem) (root : String)
    (cfg cfgAlt : WorkspaceManagerConfig) :
    pythonLoad glob parsePy fs root cfg
      = pythonLoad glob parsePy fs root cfgAlt
  ∧ pythonLoad glob parsePy fs root cfg
      = { type := ("python"), path := root,
          packages := findPythonPackages glob parsePy fs root
            (Patterns.many [("sdk/**")]) }
  ∧ npmLoad parsePkg parseNodePkg glob fs root cfg
      = npmLoad parsePkg parseNodePkg glob fs root cfgAlt :=
  ⟨rfl, rfl, rfl⟩

/-- C10: on a package directory containing neither pyproject.toml nor
setup.py, `updateVersionsForPackage` performs no write and raises no error
(the modelled write effect is `none`), for every patch request. -/
theorem c10_missing_manifest_noop (fs : FileSystem)
    (wsPath rel : String) (patch : PatchPackageVersion)
    (h1 : lookupFile fs (resolvePath3 wsPath rel ("pyproject.toml")) = none)
    (h2 : lookupFile fs (resolvePath3 wsPath rel ("setup.py")) = none) :
    updateVersionsForPackage fs wsPath rel patch = none := by
  simp [updateVersionsForPackage, isPathAccessible, h1, h2]

/-- Closed instance of `c10_missing_manifest_noop` on an empty file
system. -/
theorem c10_witness :
    updateVersionsForPackage ([] : FileSystem) ("proj") ("sdk/a")
        exPatchC10 = none :=
  c10_missing_manifest_noop [] ("proj") ("sdk/a") exPatchC10 rfl rfl
